import Mathlib

/-!
A verification development for the virtual-device command execution and
memory-dependency engine of the ROCclr GPU runtime. Every definition is a
shallow embedding of the corresponding C++ function from the repository
(`runtime/device/gpu/gpuvirtual.cpp` and `runtime/device/pal/palconstbuf.cpp`);
machine integers that cannot overflow on the studied paths are modelled
as `Nat`/`Int`, and fallible external calls (blit engine, hardware event
polling) are passed in as explicit oracle parameters. Definitions come
first, theorems after.
-/

namespace gpu

/-- One tracked memory range of the dependency tracker: start and end
addresses (half open) and the read-only flag. Mirrors
`VirtualGPU::MemoryDependency::MemoryState` as used by
`MemoryDependency::validate` in `gpuvirtual.cpp`. -/
structure MemoryState where
  start_ : Nat
  end_ : Nat
  readOnly_ : Bool
deriving DecidableEq, Repr

/-- The per-queue memory dependency tracker. `memObjectsInQueue_` holds the
valid entries (the C array slots `0 .. numMemObjectsInQueue_-1`), so
`numMemObjectsInQueue_` is its length; `endMemObjectsInQueue_` is the
boundary between entries of already-dispatched kernels and entries of the
kernel currently being assembled. -/
structure MemoryDependency where
  maxMemObjectsInQueue_ : Nat
  memObjectsInQueue_ : List MemoryState
  endMemObjectsInQueue_ : Nat
deriving DecidableEq, Repr

/-- The number of valid entries (counter `numMemObjectsInQueue_` in the
source; in the embedding it is the length of the valid-entry list). -/
def MemoryDependency.numMemObjectsInQueue_ (md : MemoryDependency) : Nat :=
  md.memObjectsInQueue_.length

/-- Embedding of `VirtualGPU::MemoryDependency::create(numMemObj)` (gpuvirtual.cpp:31):
allocates a zeroed array of `numMemObj` slots and records the capacity;
both counters start at zero. -/
def MemoryDependency.create (numMemObj : Nat) : MemoryDependency :=
  { maxMemObjectsInQueue_ := numMemObj
    memObjectsInQueue_ := []
    endMemObjectsInQueue_ := 0 }

/-- Embedding of `VirtualGPU::MemoryDependency::clear(all)` (gpuvirtual.cpp:109): when any
entries exist, keep only the entries from the current kernel (those at
indices `endMemObjectsInQueue_ ..` are shifted to the front and the count
drops by `endMemObjectsInQueue_`); with `all = true` the boundary is first
advanced to the count, so everything is dropped. The boundary is reset to
zero. -/
def MemoryDependency.clear (md : MemoryDependency) (all : Bool) : MemoryDependency :=
  if 0 < md.numMemObjectsInQueue_ then
    let e := if all then md.numMemObjectsInQueue_ else md.endMemObjectsInQueue_
    { md with
      memObjectsInQueue_ := md.memObjectsInQueue_.drop e
      endMemObjectsInQueue_ := 0 }
  else md

/-- The per-entry hazard test of `MemoryDependency::validate`
(gpuvirtual.cpp:71-77), exactly as the source writes it: three overlap
disjuncts (start inside the busy region, end inside the busy region,
current range covers the busy region) conjoined with "not both accesses
are read-only". -/
def hazardHit (curStart curEnd : Nat) (readOnly : Bool) (ms : MemoryState) : Bool :=
  ((decide (curStart ≥ ms.start_) && decide (curStart < ms.end_)) ||
   (decide (curEnd > ms.start_) && decide (curEnd ≤ ms.end_)) ||
   (decide (curStart ≤ ms.start_) && decide (curEnd ≥ ms.end_))) &&
  (!ms.readOnly_ || !readOnly)

/-- Result of one `validate` call: whether `gpu.flushL1Cache()` was issued,
and the tracker state on exit. -/
structure ValidateResult where
  flushL1Cache : Bool
  tracker : MemoryDependency
deriving DecidableEq, Repr

/-- Embedding of `VirtualGPU::MemoryDependency::validate(gpu, memory, readOnly)`
(gpuvirtual.cpp:47-107). `curStart = memory->hbOffset()`,
`curEnd = curStart + memory->hbSize()`. If the capacity is zero the call
returns immediately. Otherwise a flush is requested when some entry below
the current-kernel boundary hazards with the new range, or when appending
would reach the configured maximum; a flush is followed by `clear(false)`.
The new range is always appended at the end. -/
def MemoryDependency.validate (md : MemoryDependency)
    (curStart size : Nat) (readOnly : Bool) : ValidateResult :=
  if md.maxMemObjectsInQueue_ = 0 then ⟨false, md⟩
  else
    let curEnd := curStart + size
    let flush :=
      (md.memObjectsInQueue_.take md.endMemObjectsInQueue_).any
        (hazardHit curStart curEnd readOnly) ||
      decide (md.maxMemObjectsInQueue_ ≤ md.numMemObjectsInQueue_ + 1)
    let md1 := if flush then md.clear false else md
    ⟨flush,
     { md1 with
       memObjectsInQueue_ := md1.memObjectsInQueue_ ++ [⟨curStart, curEnd, readOnly⟩] }⟩

/-- Modelled from the spec: `MemoryDependency::newKernel()` is declared in
`gpuvirtual.hpp`, which is not among the sources (only its call site in
`VirtualGPU::processMemObjectsHSA`, gpuvirtual.cpp:3260, is). The spec
says it advances the boundary `endOfPreviousKernel` so that the entries
recorded so far count as belonging to already-dispatched kernels. -/
def MemoryDependency.newKernel (md : MemoryDependency) : MemoryDependency :=
  { md with endMemObjectsInQueue_ := md.numMemObjectsInQueue_ }

/-! ### Command statuses and batch completion (gpuvirtual.cpp:2671-2778) -/

/-- OpenCL execution-status / error constants used by the execution core
(values from the OpenCL headers consumed by the repository). -/
def CL_COMPLETE : Int := 0

def CL_RUNNING : Int := 1

def CL_SUBMITTED : Int := 2

def CL_QUEUED : Int := 3

def CL_INVALID_OPERATION : Int := -59

def CL_MAP_FAILURE : Int := -12

def CL_OUT_OF_RESOURCES : Int := -5

def CL_INVALID_VALUE : Int := -30

/-- The status transform applied by the completion walk of
`VirtualGPU::awaitCompletion` (gpuvirtual.cpp:2693-2704): a SUBMITTED
command is set RUNNING then COMPLETE, a RUNNING command is set COMPLETE,
anything else is left as it is. -/
def resolveStatus (s : Int) : Int :=
  if s = CL_SUBMITTED then CL_COMPLETE
  else if s = CL_RUNNING then CL_COMPLETE
  else s

/-- The linked-list walk of `VirtualGPU::awaitCompletion`
(gpuvirtual.cpp:2693-2713) over the batch's command statuses: each
command's status is transformed by `resolveStatus`; a command whose
status is none of SUBMITTED/RUNNING/COMPLETE produces one
`LogPrintfError` — but only when it has a successor
(`current != NULL`). The result is the status list on exit paired with
the number of errors logged. -/
def awaitWalk : List Int → List Int × Nat
  | [] => ([], 0)
  | s :: rest =>
    let r := awaitWalk rest
    if s = CL_SUBMITTED then (CL_COMPLETE :: r.1, r.2)
    else if s = CL_RUNNING then (CL_COMPLETE :: r.1, r.2)
    else if s ≠ CL_COMPLETE ∧ rest ≠ [] then (s :: r.1, r.2 + 1)
    else (s :: r.1, r.2)

/-- Embedding of `VirtualGPU::awaitCompletion(cb)` (gpuvirtual.cpp:2671-2716) on a batch
whose head command has profiling disabled (the profiled branch delegates
to `profilingCollectResults` and is outside this model): if the head is
null the function returns at once; otherwise the head is unconditionally
set to RUNNING (gpuvirtual.cpp:2684), the per-engine batch events are
waited on (`waitEventLock`, an external wait), and the walk resolves every
command. -/
def awaitCompletionNonProfiled (cmds : List Int) : List Int × Nat :=
  match cmds with
  | [] => ([], 0)
  | _ :: t => awaitWalk (CL_RUNNING :: t)

/-- A per-engine completion handle (`GpuEvent` in the sources): a validity
flag and an identifying value. -/
structure GpuEvent where
  valid : Bool
  id : Nat
deriving DecidableEq, Repr

/-- Embedding of `GpuEvent::invalidate()`. -/
def GpuEvent.invalidate (e : GpuEvent) : GpuEvent :=
  { e with valid := false }

/-- Whether an event is done: an invalid event has nothing outstanding;
a valid one consults the hardware oracle (`CtxIsEventDone` behind
`VirtualGPU::isDone`). -/
def isDone (done : Nat → Bool) (e : GpuEvent) : Bool :=
  !e.valid || done e.id

/-- Embedding of `CommandBatch` (created at gpuvirtual.cpp:2737): the head command list
(its statuses), the saved per-engine events, and the saved last-timestamp
handle. -/
structure CommandBatch where
  head : List Int
  events_ : List GpuEvent
  lastTS_ : Option Nat
deriving DecidableEq, Repr

/-- The flush-relevant state of a `VirtualGPU`: the current per-engine
events `cal_.events_`, the current last-timestamp handle `cal_.lastTS_`,
the batch FIFO `cbList_`, and `state_.forceWait_`. -/
structure QueueState where
  events_ : List GpuEvent
  lastTS_ : Option Nat
  cbList_ : List CommandBatch
  forceWait_ : Bool
deriving DecidableEq, Repr

/-- The batch-resolution loop of `VirtualGPU::flush`
(gpuvirtual.cpp:2757-2776): while the FIFO is nonempty, look at the front
batch; if all its engine events are done, or a wait was requested,
resolve it with `awaitCompletion`, delete it and pop it from the front;
otherwise exit early. Returns the remaining FIFO and the resolved
batches' final status lists in resolution order. -/
def resolveLoop (done : Nat → Bool) (wait : Bool) :
    List CommandBatch → List CommandBatch × List (List Int)
  | [] => ([], [])
  | cb :: rest =>
    let finished := cb.events_.all (isDone done)
    if finished || wait then
      let r := resolveLoop done wait rest
      (r.1, (awaitCompletionNonProfiled cb.head).1 :: r.2)
    else (cb :: rest, [])

/-- The batch created by `VirtualGPU::flush` for a non-null command list
(gpuvirtual.cpp:2736-2738), capturing the current events and last TS. -/
def newBatchList (st : QueueState) : Option (List Int) → List CommandBatch
  | none => []
  | some l => [{ head := l, events_ := st.events_, lastTS_ := st.lastTS_ }]

/-- Embedding of `VirtualGPU::flush(list, wait)` (gpuvirtual.cpp:2718-2778): if no
engine event is valid and the FIFO is empty, the force-wait flag is set;
a non-null command list becomes a new batch pushed at the back; every
engine is DMA-flushed and its event invalidated; the last TS is nulled;
the resolution loop runs with `wait` or-ed with the force-wait flag; the
force-wait flag is cleared on exit. Returns the state on exit and the
resolved batches' final status lists in resolution order. -/
def flush (done : Nat → Bool) (st : QueueState) (list : Option (List Int))
    (wait : Bool) : QueueState × List (List Int) :=
  let gpuCommand := st.events_.any (fun e => e.valid)
  let forceWait := if !gpuCommand && st.cbList_.isEmpty then true else st.forceWait_
  let events1 := st.events_.map GpuEvent.invalidate
  let cbl := st.cbList_ ++ newBatchList st list
  let wait1 := wait || forceWait
  let r := resolveLoop done wait1 cbl
  ({ events_ := events1, lastTS_ := none, cbList_ := r.1, forceWait_ := false }, r.2)

/-! ### Command submission entry points (gpuvirtual.cpp:644-, 1590-, 2050-) -/

/-- An application command as seen by the submit entry points: only its
execution status is relevant here. -/
structure Command where
  status : Int
deriving DecidableEq, Repr

/-- Embedding of `amd::Command::setStatus`. -/
def Command.setStatus (c : Command) (s : Int) : Command :=
  { c with status := s }

/-- Observable queue-level actions of a submit entry point; the scoped
execution lock (`amd::ScopedLock lock(execution())`) is entered at
construction and left at scope exit. -/
inductive QueueOp
  | acquireExecLock
  | releaseExecLock
  | blitOp
  | dispatchOp
  | awaitBatchOp
deriving DecidableEq, Repr

/-- The command kinds dispatched by `VirtualGPU::submitReadMemory`'s
switch (gpuvirtual.cpp:679): `CL_COMMAND_READ_BUFFER`,
`CL_COMMAND_READ_BUFFER_RECT`, `CL_COMMAND_READ_IMAGE`, or anything
else (the `default:` arm). -/
inductive ReadCmdType
  | readBuffer
  | readBufferRect
  | readImage
  | otherType
deriving DecidableEq, Repr

/-- Success/failure of the individual blit-manager operations invoked by
`submitReadMemory`; these calls are external collaborators
(`blitMgr().copyBuffer`, `readBuffer`, …). -/
structure BlitOracle where
  copyBuffer : Bool
  readBuffer : Bool
  copyBufferRect : Bool
  readBufferRect : Bool
  copyImageToBuffer : Bool
  readImage : Bool
  copyBufferToImage : Bool
deriving DecidableEq, Repr

/-- The `result` computed by `VirtualGPU::submitReadMemory`
(gpuvirtual.cpp:661-735): an IMAGE1D_BUFFER read is forced to a buffer
read when the buffer view is created; each arm picks the accelerated copy
when the destination maps to a device allocation (`hostMemory != NULL`,
for the rect arm only with offset 0), else the plain read; the `default:`
arm leaves `result = false`. -/
def readMemoryBlitResult (ty : ReadCmdType)
    (img1DBuffer bufferFromImageOk hostMemory offsetZero : Bool)
    (o : BlitOracle) : Bool :=
  let ty1 := if ty = ReadCmdType.readImage ∧ img1DBuffer ∧ bufferFromImageOk
    then ReadCmdType.readBuffer else ty
  match ty1 with
  | ReadCmdType.readBuffer => if hostMemory then o.copyBuffer else o.readBuffer
  | ReadCmdType.readBufferRect =>
      if hostMemory ∧ offsetZero then o.copyBufferRect else o.readBufferRect
  | ReadCmdType.readImage => if hostMemory then o.copyImageToBuffer else o.readImage
  | ReadCmdType.otherType => false

/-- Embedding of `VirtualGPU::submitReadMemory(vcmd)` (gpuvirtual.cpp:644-743): takes
the scoped execution lock for the whole call, performs the blit work, and
if the blit result is false sets the command status to
`CL_INVALID_OPERATION`; the function always runs to the end of its body
(no exception crosses it). Returns the command on exit and the action
trace. -/
def submitReadMemory (cmd : Command) (ty : ReadCmdType)
    (img1DBuffer bufferFromImageOk hostMemory offsetZero : Bool)
    (o : BlitOracle) : Command × List QueueOp :=
  let result := readMemoryBlitResult ty img1DBuffer bufferFromImageOk
    hostMemory offsetZero o
  (if result then cmd else cmd.setStatus CL_INVALID_OPERATION,
   [QueueOp.acquireExecLock, QueueOp.blitOp, QueueOp.releaseExecLock])

/-- Embedding of `VirtualGPU::submitKernel(vcmd)` (gpuvirtual.cpp:1590-1604): takes the
scoped execution lock for the whole call, submits through
`submitKernelInternal` (whose success is `submitOk`), and on failure sets
the command status to `CL_INVALID_OPERATION`. -/
def submitKernel (cmd : Command) (submitOk : Bool) : Command × List QueueOp :=
  (if submitOk then cmd else cmd.setStatus CL_INVALID_OPERATION,
   [QueueOp.acquireExecLock, QueueOp.dispatchOp, QueueOp.releaseExecLock])

/-- The blit operation selected by the remote-resource arm of
`VirtualGPU::submitMapMemory` (gpuvirtual.cpp:1070-1113): `copyBuffer`
for a buffer, `copyBuffer` again for an IMAGE1D_BUFFER (through the
buffer view; the view-creation failure is only logged and the copy still
runs), `copyImageToBuffer` for any other image. -/
def mapBlitChoice (isBuffer isImage1DBuffer : Bool) (o : BlitOracle) : Bool :=
  if isBuffer then o.copyBuffer
  else if isImage1DBuffer then o.copyBuffer
  else o.copyImageToBuffer

/-- The failure condition of `submitMapMemory`: the command reaches the
remote-resource copy arm (no host memory, not a persistent direct map,
a map staging resource exists, the map flags request READ or WRITE) and
the selected blit fails. -/
def mapMemoryCopyFailed
    (hostMem persistentDirectMap mapMemoryPresent mapFlagsReadWrite
      isBuffer isImage1DBuffer : Bool) (o : BlitOracle) : Bool :=
  !hostMem && !persistentDirectMap && mapMemoryPresent && mapFlagsReadWrite &&
  !(mapBlitChoice isBuffer isImage1DBuffer o)

/-- Embedding of `VirtualGPU::submitMapMemory(vcmd)`
(gpuvirtual.cpp:1033-1121): takes the scoped execution lock for the whole
call; with host memory, a persistent direct map, or map flags requesting
neither READ nor WRITE no copy runs; otherwise, on the remote-resource
arm, a failed copy sets `CL_MAP_FAILURE` (lines 1075, 1100, 1111) — not
`CL_INVALID_OPERATION`. -/
def submitMapMemory (cmd : Command)
    (hostMem persistentDirectMap mapMemoryPresent mapFlagsReadWrite
      isBuffer isImage1DBuffer : Bool) (o : BlitOracle) :
    Command × List QueueOp :=
  (if hostMem then cmd
   else if persistentDirectMap then cmd
   else if mapMemoryPresent then
     (if mapFlagsReadWrite then
       (if mapBlitChoice isBuffer isImage1DBuffer o then cmd
        else cmd.setStatus CL_MAP_FAILURE)
      else cmd)
   else cmd,
   [QueueOp.acquireExecLock, QueueOp.blitOp, QueueOp.releaseExecLock])

/-- The blit operation selected by the remote-resource arm of
`VirtualGPU::submitUnmapMemory` (gpuvirtual.cpp:1153-1203): `copyBuffer`
for a buffer and for an IMAGE1D_BUFFER (through the buffer view),
`copyBufferToImage` for any other image. -/
def unmapBlitChoice (isBuffer isImage1DBuffer : Bool) (o : BlitOracle) : Bool :=
  if isBuffer then o.copyBuffer
  else if isImage1DBuffer then o.copyBuffer
  else o.copyBufferToImage

/-- The failure condition of `submitUnmapMemory`: the command reaches the
remote-resource copy arm (no host memory, no persistent direct map with
data, a map staging resource exists, the map was a write map) and the
selected blit fails. -/
def unmapMemoryCopyFailed
    (hostMem persistentDirectMapWithData mapMemoryPresent isUnmapWrite
      isBuffer isImage1DBuffer : Bool) (o : BlitOracle) : Bool :=
  !hostMem && !persistentDirectMapWithData && mapMemoryPresent &&
  isUnmapWrite && !(unmapBlitChoice isBuffer isImage1DBuffer o)

/-- The unhandled-unmap condition of `submitUnmapMemory`
(gpuvirtual.cpp:1206-1209): none of the three configurations applies. -/
def unmapUnhandled
    (hostMem persistentDirectMapWithData mapMemoryPresent : Bool) : Bool :=
  !hostMem && !persistentDirectMapWithData && !mapMemoryPresent

/-- Embedding of `VirtualGPU::submitUnmapMemory(vcmd)`
(gpuvirtual.cpp:1123-1213): takes the scoped execution lock for the
whole call; with host memory or a persistent direct map with data no
copy runs; on the remote-resource arm a failed write-back copy sets
`CL_OUT_OF_RESOURCES` (lines 1161, 1187, 1201); an unhandled unmap sets
`CL_INVALID_VALUE` (line 1208) — neither is `CL_INVALID_OPERATION`. -/
def submitUnmapMemory (cmd : Command)
    (hostMem persistentDirectMapWithData mapMemoryPresent isUnmapWrite
      isBuffer isImage1DBuffer : Bool) (o : BlitOracle) :
    Command × List QueueOp :=
  (if hostMem then cmd
   else if persistentDirectMapWithData then cmd
   else if mapMemoryPresent then
     (if isUnmapWrite then
       (if unmapBlitChoice isBuffer isImage1DBuffer o then cmd
        else cmd.setStatus CL_OUT_OF_RESOURCES)
      else cmd)
   else cmd.setStatus CL_INVALID_VALUE,
   [QueueOp.acquireExecLock, QueueOp.blitOp, QueueOp.releaseExecLock])

/-- The batch loop of `VirtualGPU::submitMarker` (gpuvirtual.cpp:2058-2068):
pop batches from the front, resolving each with `awaitCompletion` (whose
event wait `waitEventLock` takes — and releases — the execution lock
transiently, gpuvirtual.cpp:2887), until the waiting command is found.
`found?` tells whether a batch contains the waited-on command. Returns
the remaining FIFO, whether the command was found, and the action
trace. -/
def markerLoop (found? : CommandBatch → Bool) :
    List CommandBatch → List CommandBatch × Bool × List QueueOp
  | [] => ([], false, [])
  | cb :: rest =>
    let acts := [QueueOp.acquireExecLock, QueueOp.releaseExecLock,
      QueueOp.awaitBatchOp]
    if found? cb then (rest, true, acts)
    else
      let r := markerLoop found? rest
      (r.1, r.2.1, acts ++ r.2.2)

/-- Embedding of `VirtualGPU::submitMarker(vcmd)` (gpuvirtual.cpp:2049-2079): the source
notes "runtime doesn't need to lock this command on execution" — no
scoped execution lock is taken by the entry point itself. With no waiting
event it does nothing; otherwise it resolves batches from the front until
the waiting command is found, and if it never is, sets
`state_.forceWait_`. -/
def submitMarker (found? : CommandBatch → Bool) (st : QueueState)
    (hasWaitingEvent : Bool) : QueueState × List QueueOp :=
  if hasWaitingEvent = false then (st, [])
  else
    let r := markerLoop found? st.cbList_
    let st1 := { st with cbList_ := r.1 }
    if r.2.1 = false then ({ st1 with forceWait_ := true }, r.2.2)
    else (st1, r.2.2)

/-! ### HSA kernel submission and dynamic parallelism (gpuvirtual.cpp:1606-1886) -/

/-- Embedding of `FGSStatus` returned by
`kernel.parameters().getSvmSystemPointersSupport()` (used at
gpuvirtual.cpp:1631). -/
inductive FGSStatus
  | fgsYes
  | fgsNo
  | fgsDefault
deriving DecidableEq, Repr

/-- The externally visible dispatch actions of `submitKernelInternalHSA`:
the dependency-tracker pass, the parent AQL dispatch (`runAqlDispatch`),
the child-scheduler dispatch (`runScheduler` on the default device
queue), and the termination handshake (`virtualQueueHandshake`). -/
inductive HsaAction
  | processMemObjects
  | runAqlDispatch
  | runScheduler
  | handshake
deriving DecidableEq, Repr

/-- The inputs of `VirtualGPU::submitKernelInternalHSA` that steer its
control flow: success of the printf-buffer init, the fine-grain-system
request and device capability, the per-SVM-pointer lookups (`none` = no
SVM buffer found, `some ok` = found with/without a device memory), the
kernel's dynamic-parallelism flag, the default device queue's hardware
ring (if a default queue exists) and the host queue's ring, and success
of argument loading and printf readback. -/
structure HsaSubmitInput where
  printfInitOk : Bool
  fgsStatus : FGSStatus
  deviceSupportFGS : Bool
  svmLookups : List (Option Bool)
  dynamicParallelism : Bool
  defQueueRing : Option Nat
  hostRing : Nat
  loadArgumentsOk : Bool
  printfOutputOk : Bool
deriving DecidableEq, Repr

/-- The fine-grain-system support switch of `submitKernelInternalHSA`
(gpuvirtual.cpp:1630-1645): `FGS_YES` forces support on (the failure when
the device lacks it is handled before this), `FGS_NO` forces it off, the
default keeps the device capability. -/
def supportFineGrainedSystem (st : FGSStatus) (deviceFGS : Bool) : Bool :=
  match st with
  | FGSStatus.fgsYes => true
  | FGSStatus.fgsNo => false
  | FGSStatus.fgsDefault => deviceFGS

/-- The SVM-pointer loop of `submitKernelInternalHSA`
(gpuvirtual.cpp:1652-1668): a pointer with no SVM buffer fails the call
unless fine-grain-system is supported; a found buffer with no device
memory fails the call. -/
def svmLoopOk (supportFGS : Bool) : List (Option Bool) → Bool
  | [] => true
  | none :: rest => supportFGS && svmLoopOk supportFGS rest
  | some ok :: rest => ok && svmLoopOk supportFGS rest

/-- Embedding of `VirtualGPU::submitKernelInternalHSA` (gpuvirtual.cpp:1606-1886),
reduced to its control flow over the oracle inputs: early failures before
any dispatch (printf init, fine-grain-system support, SVM lookups); then
the dependency pass; then, for a dynamic-parallelism kernel, failure when
no default device queue exists or when the default queue maps to the same
hardware ring as the host queue (gpuvirtual.cpp:1683-1686) — both before
any dispatch; then argument loading; then the parent AQL dispatch,
followed for dynamic parallelism by the child-scheduler dispatch and the
termination handshake. Returns success and the action trace. -/
def submitKernelInternalHSA (inp : HsaSubmitInput) : Bool × List HsaAction :=
  if inp.printfInitOk = false then (false, [])
  else if inp.fgsStatus = FGSStatus.fgsYes ∧ inp.deviceSupportFGS = false then
    (false, [])
  else
    let supportFGS := supportFineGrainedSystem inp.fgsStatus inp.deviceSupportFGS
    if svmLoopOk supportFGS inp.svmLookups = false then (false, [])
    else
      let acts0 := [HsaAction.processMemObjects]
      if inp.dynamicParallelism then
        match inp.defQueueRing with
        | none => (false, acts0)
        | some ring =>
          if ring = inp.hostRing then (false, acts0)
          else if inp.loadArgumentsOk = false then (false, acts0)
          else
            let acts := acts0 ++ [HsaAction.runAqlDispatch,
              HsaAction.runScheduler, HsaAction.handshake]
            if inp.printfOutputOk = false then (false, acts) else (true, acts)
      else
        if inp.loadArgumentsOk = false then (false, acts0)
        else
          let acts := acts0 ++ [HsaAction.runAqlDispatch]
          if inp.printfOutputOk = false then (false, acts) else (true, acts)

end gpu

namespace pal

/-- Modelled from the spec: `amd::alignUp` is defined in a utility header
that is not among the sources; it rounds a size up to the next multiple
of the alignment (here always 256, the staging-buffer constant). -/
def alignUp (value alignment : Nat) : Nat :=
  (value + alignment - 1) / alignment * alignment

/-- Constant `MemAlignment` from `ManagedBuffer::reserve` (palconstbuf.cpp:56). -/
def MemAlignment : Nat := 256

/-- One slab of the managed staging buffer: its GPU virtual base address
(`vmAddress()`) and its CPU mapped base (`data()`), both modelled as plain
addresses. -/
structure Slab where
  vmAddress : Nat
  dataBase : Nat
deriving DecidableEq, Repr, Inhabited

/-- The `ManagedBuffer` state (palconstbuf.cpp:13-19): a fixed round-robin
list of slabs, the index of the active slab, the common slab capacity
`size_`, the write cursor `wrtOffset_` into the active slab and the
cached CPU write base `wrtAddress_` of the active slab. The number of
slabs (`MaxNumberOfBuffers`, a constant in `palconstbuf.hpp`, which is
not among the sources) is the length of `buffers_`. -/
structure ManagedBuffer where
  buffers_ : List Slab
  activeBuffer_ : Nat
  size_ : Nat
  wrtOffset_ : Nat
  wrtAddress_ : Nat
deriving DecidableEq, Repr

/-- Result of `ManagedBuffer::reserve`: the CPU pointer and GPU virtual
address handed out, the slab index on which `wait(gpu_)` was invoked
during rotation (`none` when no rotation and hence no wait occurred), and
the state on exit. -/
structure ReserveResult where
  cpu_address : Nat
  gpu_address : Nat
  waitedOn : Option Nat
  state : ManagedBuffer
deriving DecidableEq, Repr

/-- Embedding of `ManagedBuffer::reserve(size, gpu_address)` (palconstbuf.cpp:55-79):
aligns the size up to 256 bytes; if the aligned reservation does not fit
in the active slab, advances `activeBuffer_` round-robin, waits on that
slab and resets the cursor; returns the CPU/GPU addresses at the current
cursor of the active slab and advances the cursor by the aligned size. -/
def ManagedBuffer.reserve (mb : ManagedBuffer) (size : Nat) : ReserveResult :=
  let count := alignUp size MemAlignment
  let rotated := mb.wrtOffset_ + count > mb.size_
  let mb1 :=
    if rotated then
      let active := (mb.activeBuffer_ + 1) % mb.buffers_.length
      { mb with
        activeBuffer_ := active
        wrtAddress_ := (mb.buffers_.getD active default).dataBase
        wrtOffset_ := 0 }
    else mb
  { cpu_address := mb1.wrtAddress_ + mb1.wrtOffset_
    gpu_address := (mb1.buffers_.getD mb1.activeBuffer_ default).vmAddress + mb1.wrtOffset_
    waitedOn := if rotated then some mb1.activeBuffer_ else none
    state := { mb1 with wrtOffset_ := mb1.wrtOffset_ + count } }

/-- Well-formedness of a `ManagedBuffer` between calls: there is at least
one slab, the active index is in range, the cached write base is the
active slab's CPU base, and the cursor is 256-byte aligned. All hold
after `create` (cursor 0, active 0, base cached from slab 0) and are
preserved by `reserve` (shown below). -/
def ManagedBuffer.WF (mb : ManagedBuffer) : Prop :=
  0 < mb.buffers_.length ∧
  mb.activeBuffer_ < mb.buffers_.length ∧
  mb.wrtAddress_ = (mb.buffers_.getD mb.activeBuffer_ default).dataBase ∧
  mb.wrtOffset_ % MemAlignment = 0

/-- A concrete two-slab staging buffer used by the witnesses below:
capacity 512, cursor 256, slab 0 active. -/
def sampleBuffer : ManagedBuffer :=
  { buffers_ := [⟨4096, 20480⟩, ⟨8192, 24576⟩]
    activeBuffer_ := 0
    size_ := 512
    wrtOffset_ := 256
    wrtAddress_ := 20480 }

end pal

namespace gpu

/-- A concrete queue state used by the C8 counterexample: one invalid
engine event, empty batch FIFO, force-wait flag set (reachable through
`submitMarker` with an unfound waiting event, gpuvirtual.cpp:2072). -/
def sampleForceWaitState : QueueState :=
  { events_ := [⟨false, 0⟩]
    lastTS_ := none
    cbList_ := []
    forceWait_ := true }

/-- A concrete queue state with one invalid event, no pending timestamp,
an empty FIFO and a clear force-wait flag. -/
def sampleIdleState : QueueState :=
  { events_ := [⟨false, 5⟩]
    lastTS_ := none
    cbList_ := []
    forceWait_ := false }

/-- A blit oracle on which every blit-manager operation fails. -/
def failingBlitOracle : BlitOracle :=
  { copyBuffer := false
    readBuffer := false
    copyBufferRect := false
    readBufferRect := false
    copyImageToBuffer := false
    readImage := false
    copyBufferToImage := false }

/-- A concrete command in the SUBMITTED state. -/
def sampleCommand : Command :=
  { status := CL_SUBMITTED }

end gpu

/-! ## Theorems -/

namespace gpu

/-- The per-entry test of the source agrees with half-open interval
overlap plus the not-both-read-only condition, whenever both ranges are
nonempty. -/
theorem hazardHit_iff (s e : Nat) (ro : Bool) (ms : MemoryState)
    (hs : s < e) (hm : ms.start_ < ms.end_) :
    hazardHit s e ro ms = true ↔
      (s < ms.end_ ∧ ms.start_ < e ∧ ¬(ms.readOnly_ = true ∧ ro = true)) := by
  cases hro : ms.readOnly_ <;> cases hro2 : ro <;>
    simp [hazardHit, hro, decide_eq_true_eq] <;> omega

/-- C1. On a tracker with positive capacity, `validate` issues
`flushL1Cache` if and only if either the half-open range
`[curStart, curStart+size)` overlaps some entry recorded before the
current-kernel boundary `endMemObjectsInQueue_` and it is not the case
that both that entry and the new access are read-only, or appending the
new entry would reach the configured maximum count; and in every case the
new range is appended to the tracker after the decision. -/
theorem MemoryDependency.validate_flush_iff_hazard_or_capacity
    (md : MemoryDependency) (curStart size : Nat) (readOnly : Bool)
    (hmax : 0 < md.maxMemObjectsInQueue_) (hsize : 0 < size)
    (hwf : ∀ ms ∈ md.memObjectsInQueue_, ms.start_ < ms.end_) :
    ((md.validate curStart size readOnly).flushL1Cache = true ↔
      ((∃ ms ∈ md.memObjectsInQueue_.take md.endMemObjectsInQueue_,
          curStart < ms.end_ ∧ ms.start_ < curStart + size ∧
          ¬(ms.readOnly_ = true ∧ readOnly = true)) ∨
        md.maxMemObjectsInQueue_ ≤ md.numMemObjectsInQueue_ + 1)) ∧
    ∃ pre, (md.validate curStart size readOnly).tracker.memObjectsInQueue_ =
      pre ++ [⟨curStart, curStart + size, readOnly⟩] := by
  have hmax0 : ¬ md.maxMemObjectsInQueue_ = 0 := by omega
  constructor
  · simp only [MemoryDependency.validate, hmax0, if_false, Bool.or_eq_true,
      List.any_eq_true, decide_eq_true_eq]
    constructor
    · rintro (⟨ms, hms, hh⟩ | hcap)
      · exact Or.inl ⟨ms, hms,
          (hazardHit_iff curStart (curStart + size) readOnly ms (by omega)
            (hwf ms (List.mem_of_mem_take hms))).mp hh⟩
      · exact Or.inr hcap
    · rintro (⟨ms, hms, hh⟩ | hcap)
      · exact Or.inl ⟨ms, hms,
          (hazardHit_iff curStart (curStart + size) readOnly ms (by omega)
            (hwf ms (List.mem_of_mem_take hms))).mpr hh⟩
      · exact Or.inr hcap
  · simp only [MemoryDependency.validate, hmax0, if_false]
    exact ⟨_, rfl⟩

/-- Witness for C1: on a capacity-2 tracker holding one previously
dispatched write entry `[0,8)`, a read of `[4,8)` (size 4, read-only)
triggers a flush, and the new range lands at the tail. -/
theorem MemoryDependency.validate_flush_iff_hazard_or_capacity_witness :
    (0 < (2 : Nat) ∧ 0 < (4 : Nat)) ∧
    ((({ maxMemObjectsInQueue_ := 2,
         memObjectsInQueue_ := [⟨0, 8, false⟩],
         endMemObjectsInQueue_ := 1 } : MemoryDependency).validate 4 4
          true).flushL1Cache = true ↔
      ((∃ ms ∈ ([⟨0, 8, false⟩] : List MemoryState).take 1,
          4 < ms.end_ ∧ ms.start_ < 4 + 4 ∧
          ¬(ms.readOnly_ = true ∧ true = true)) ∨
        (2 : Nat) ≤ 1 + 1)) :=
  ⟨⟨by decide, by decide⟩,
    ((MemoryDependency.validate_flush_iff_hazard_or_capacity
      { maxMemObjectsInQueue_ := 2, memObjectsInQueue_ := [⟨0, 8, false⟩],
        endMemObjectsInQueue_ := 1 } 4 4 true (by decide) (by decide)
      (by intro ms hms; simp at hms; simp [hms])).1)⟩

/-- C2 counterexample: the claim "the number of tracked entries never
exceeds the configured maximum M" fails on the code. On a tracker of
capacity 1, two consecutive `validate` calls with no intervening
`newKernel` leave 2 tracked entries: the compaction performed on
capacity overflow retains all entries past the boundary, and with the
boundary at 0 it removes nothing. -/
theorem MemoryDependency.capacity_bound_counterexample :
    1 < ((((MemoryDependency.create 1).validate 0 4 false).tracker.validate
      16 4 false).tracker.numMemObjectsInQueue_) := by decide

/-- C2 amended. Whenever a `validate` call starts with fewer
current-kernel entries (entries past the boundary) than the maximum, the
entry count on exit is at most the maximum — in particular the bound
holds throughout any call sequence in which each kernel validates at
most `max` ranges after its `newKernel` boundary was set; a single
kernel validating more than `max` ranges exceeds the bound. Moreover an
insertion that would reach capacity always first triggers a flush plus
the compaction that retains exactly the entries past the boundary
(those of the kernel currently being assembled). -/
theorem MemoryDependency.validate_capacity_bound_amended
    (md : MemoryDependency) (curStart size : Nat) (readOnly : Bool)
    (h : md.numMemObjectsInQueue_ - md.endMemObjectsInQueue_ <
      md.maxMemObjectsInQueue_) :
    (md.validate curStart size readOnly).tracker.numMemObjectsInQueue_ ≤
      md.maxMemObjectsInQueue_ ∧
    (md.maxMemObjectsInQueue_ ≤ md.numMemObjectsInQueue_ + 1 →
      (md.validate curStart size readOnly).flushL1Cache = true ∧
      (md.validate curStart size readOnly).tracker.memObjectsInQueue_ =
        md.memObjectsInQueue_.drop md.endMemObjectsInQueue_ ++
          [⟨curStart, curStart + size, readOnly⟩]) := by
  have hmax0 : ¬ md.maxMemObjectsInQueue_ = 0 := by
    simp only [MemoryDependency.numMemObjectsInQueue_] at h; omega
  have hcap : md.maxMemObjectsInQueue_ ≤ md.numMemObjectsInQueue_ + 1 →
      (md.validate curStart size readOnly).flushL1Cache = true := by
    intro hle
    simp only [MemoryDependency.validate, hmax0, if_false, Bool.or_eq_true,
      decide_eq_true_eq]
    exact Or.inr hle
  have hentries : (md.validate curStart size readOnly).tracker.memObjectsInQueue_ =
      (if (md.validate curStart size readOnly).flushL1Cache then
        md.memObjectsInQueue_.drop md.endMemObjectsInQueue_
      else md.memObjectsInQueue_) ++ [⟨curStart, curStart + size, readOnly⟩] := by
    simp only [MemoryDependency.validate, hmax0, if_false]
    rcases hfl : ((md.memObjectsInQueue_.take md.endMemObjectsInQueue_).any
        (hazardHit curStart (curStart + size) readOnly) ||
      decide (md.maxMemObjectsInQueue_ ≤ md.numMemObjectsInQueue_ + 1)) with _ | _
    · simp [hfl]
    · simp only [hfl, if_true]
      rcases hlen : md.memObjectsInQueue_ with _ | ⟨a, l⟩
      · simp [MemoryDependency.clear, MemoryDependency.numMemObjectsInQueue_, hlen]
      · simp [MemoryDependency.clear, MemoryDependency.numMemObjectsInQueue_, hlen]
  constructor
  · rw [MemoryDependency.numMemObjectsInQueue_, hentries]
    by_cases hf : (md.validate curStart size readOnly).flushL1Cache = true
    · rw [if_pos hf]
      simp only [List.length_append, List.length_drop, List.length_singleton]
      simp only [MemoryDependency.numMemObjectsInQueue_] at h
      omega
    · have hnof : (md.validate curStart size readOnly).flushL1Cache = false := by
        simpa using hf
      have hlt : md.numMemObjectsInQueue_ + 1 < md.maxMemObjectsInQueue_ := by
        by_contra hcon
        exact absurd (hcap (by omega)) (by simp [hnof])
      rw [if_neg hf]
      simp only [List.length_append, List.length_singleton]
      simp only [MemoryDependency.numMemObjectsInQueue_] at hlt
      omega
  · intro hle
    refine ⟨hcap hle, ?_⟩
    rw [hentries, if_pos (hcap hle)]

/-- Witness for C2 amended: a capacity-2 tracker holding one
already-dispatched entry (boundary 1) validated with a fresh range stays
within the bound, flushes for capacity, and compacts to the
current-kernel entries plus the new range. -/
theorem MemoryDependency.validate_capacity_bound_amended_witness :
    ((1 : Nat) - 1 < 2) ∧
    (({ maxMemObjectsInQueue_ := 2, memObjectsInQueue_ := [⟨0, 8, false⟩],
        endMemObjectsInQueue_ := 1 } : MemoryDependency).validate 16 4
          false).tracker.numMemObjectsInQueue_ ≤ 2 :=
  ⟨by decide,
    (MemoryDependency.validate_capacity_bound_amended
      { maxMemObjectsInQueue_ := 2, memObjectsInQueue_ := [⟨0, 8, false⟩],
        endMemObjectsInQueue_ := 1 } 16 4 false (by decide)).1⟩

end gpu

namespace pal

theorem le_alignUpMem (v : Nat) : v ≤ alignUp v MemAlignment := by
  have h := Nat.div_add_mod (v + 255) 256
  have h2 : (v + 255) % 256 < 256 := Nat.mod_lt _ (by norm_num)
  simp only [alignUp, MemAlignment]
  omega

theorem alignUpMem_mod (v : Nat) : alignUp v MemAlignment % MemAlignment = 0 :=
  Nat.mul_mod_left _ _

/-- The call `reserve` preserves the between-calls well-formedness invariant. -/
theorem ManagedBuffer.reserve_WF (mb : ManagedBuffer) (size : Nat)
    (hwf : mb.WF) : (mb.reserve size).state.WF := by
  obtain ⟨h0, hact, haddr, hoff⟩ := hwf
  simp only [ManagedBuffer.reserve, gt_iff_lt]
  by_cases hrot : mb.size_ < mb.wrtOffset_ + alignUp size MemAlignment
  · rw [if_pos hrot]
    exact ⟨h0, Nat.mod_lt _ h0, rfl, by simpa using alignUpMem_mod size⟩
  · rw [if_neg hrot]
    refine ⟨h0, hact, haddr, ?_⟩
    have hc := alignUpMem_mod size
    dsimp only
    simp only [MemAlignment] at hoff hc ⊢
    omega

/-- C3. `reserve(size)`: when the active slab's cursor plus the
256-byte-aligned size would exceed the slab capacity, `reserve` rotates
to slab `(active+1) mod N` in round-robin order and waits on exactly that
slab — the one whose CPU/GPU addresses it then returns (at its start) —
before handing the reservation out; when the aligned reservation fits, no
rotation and no wait occurs; in both cases the cursor on exit is the
aligned size past its post-rotation value. -/
theorem ManagedBuffer.reserve_rotation_wait (mb : ManagedBuffer) (size : Nat) :
    (mb.size_ < mb.wrtOffset_ + alignUp size MemAlignment →
      (mb.reserve size).state.activeBuffer_ =
        (mb.activeBuffer_ + 1) % mb.buffers_.length ∧
      (mb.reserve size).waitedOn = some ((mb.reserve size).state.activeBuffer_) ∧
      (mb.reserve size).cpu_address =
        (mb.buffers_.getD ((mb.reserve size).state.activeBuffer_) default).dataBase ∧
      (mb.reserve size).gpu_address =
        (mb.buffers_.getD ((mb.reserve size).state.activeBuffer_) default).vmAddress ∧
      (mb.reserve size).state.wrtOffset_ = alignUp size MemAlignment) ∧
    (¬ mb.size_ < mb.wrtOffset_ + alignUp size MemAlignment →
      (mb.reserve size).waitedOn = none ∧
      (mb.reserve size).state.activeBuffer_ = mb.activeBuffer_ ∧
      (mb.reserve size).state.wrtOffset_ =
        mb.wrtOffset_ + alignUp size MemAlignment) := by
  constructor
  · intro hrot
    simp [ManagedBuffer.reserve, gt_iff_lt, if_pos hrot]
  · intro hrot
    simp [ManagedBuffer.reserve, gt_iff_lt, if_neg hrot]

/-- Witness for C3: a two-slab buffer of capacity 512 with cursor 256
receiving a 512-byte reservation rotates to slab 1 and waits on it. -/
theorem ManagedBuffer.reserve_rotation_wait_witness :
    (sampleBuffer.size_ < sampleBuffer.wrtOffset_ + alignUp 512 MemAlignment) ∧
    (sampleBuffer.reserve 512).waitedOn =
      some ((sampleBuffer.reserve 512).state.activeBuffer_) :=
  ⟨by decide,
    ((ManagedBuffer.reserve_rotation_wait sampleBuffer 512).1 (by decide)).2.1⟩

/-- C10. For a well-formed `ManagedBuffer` and a reservation whose
256-byte-aligned size fits in a slab, the returned CPU pointer and GPU
virtual address lie at one common offset from the active slab's CPU and
GPU base addresses, that offset is a multiple of 256, and the reserved
byte range `[off, off + alignedSize)` lies entirely within the slab
capacity — the reservation never spans two slabs nor extends past a
slab's end. -/
theorem ManagedBuffer.reserve_offset_within_slab (mb : ManagedBuffer)
    (size : Nat) (hwf : mb.WF)
    (hfit : alignUp size MemAlignment ≤ mb.size_) :
    ∃ off,
      (mb.reserve size).cpu_address =
        (mb.buffers_.getD ((mb.reserve size).state.activeBuffer_)
          default).dataBase + off ∧
      (mb.reserve size).gpu_address =
        (mb.buffers_.getD ((mb.reserve size).state.activeBuffer_)
          default).vmAddress + off ∧
      off % MemAlignment = 0 ∧
      off + alignUp size MemAlignment ≤ mb.size_ := by
  obtain ⟨h0, hact, haddr, hoff⟩ := hwf
  by_cases hrot : mb.size_ < mb.wrtOffset_ + alignUp size MemAlignment
  · refine ⟨0, ?_, ?_, Nat.zero_mod _, by omega⟩
    · simp [ManagedBuffer.reserve, gt_iff_lt, if_pos hrot]
    · simp [ManagedBuffer.reserve, gt_iff_lt, if_pos hrot]
  · refine ⟨mb.wrtOffset_, ?_, ?_, hoff, by omega⟩
    · simp [ManagedBuffer.reserve, gt_iff_lt, if_neg hrot, haddr]
    · simp [ManagedBuffer.reserve, gt_iff_lt, if_neg hrot]

/-- Witness for C10: a fitting 100-byte reservation on the sample
well-formed two-slab buffer stays inside the active slab at a 256-aligned
offset. -/
theorem ManagedBuffer.reserve_offset_within_slab_witness :
    (sampleBuffer.WF ∧ alignUp 100 MemAlignment ≤ sampleBuffer.size_) ∧
    ∃ off,
      (sampleBuffer.reserve 100).cpu_address =
        (sampleBuffer.buffers_.getD
          ((sampleBuffer.reserve 100).state.activeBuffer_)
          default).dataBase + off ∧
      (sampleBuffer.reserve 100).gpu_address =
        (sampleBuffer.buffers_.getD
          ((sampleBuffer.reserve 100).state.activeBuffer_)
          default).vmAddress + off ∧
      off % MemAlignment = 0 ∧
      off + alignUp 100 MemAlignment ≤ sampleBuffer.size_ :=
  ⟨⟨⟨by decide, by decide, by decide, by decide⟩, by decide⟩,
    ManagedBuffer.reserve_offset_within_slab sampleBuffer 100
      ⟨by decide, by decide, by decide, by decide⟩ (by decide)⟩

end pal

namespace gpu

/-- With a forced wait the resolution loop resolves every batch, applying
the same per-batch resolution as any other path. -/
theorem resolveLoop_true (done : Nat → Bool) (l : List CommandBatch) :
    resolveLoop done true l =
      ([], l.map fun cb => (awaitCompletionNonProfiled cb.head).1) := by
  induction l with
  | nil => rfl
  | cons cb rest ih => simp [resolveLoop, ih]

/-- The resolution loop always consumes exactly a prefix of the batch
FIFO, resolving the batches of that prefix in list order. -/
theorem resolveLoop_consumes_front (done : Nat → Bool) (w : Bool) (l : List CommandBatch) :
    ∃ k, resolveLoop done w l =
      (l.drop k, (l.take k).map fun cb => (awaitCompletionNonProfiled cb.head).1) := by
  induction l with
  | nil => exact ⟨0, rfl⟩
  | cons cb rest ih =>
    by_cases hc : (cb.events_.all (isDone done) || w) = true
    · obtain ⟨k, hk⟩ := ih
      exact ⟨k + 1, by simp [resolveLoop, hc, hk]⟩
    · exact ⟨0, by simp [resolveLoop, hc]⟩

/-- C4. Batch resolution in `flush` is strict FIFO: for every state,
submitted list and wait mode, the resolved batches form a prefix (in
order) of the per-queue batch FIFO (prior batches followed by the newly
created one), the remaining FIFO is the corresponding suffix, the
blocking path (`wait = true`) resolves the whole FIFO with the identical
per-batch resolution, and the non-blocking result is exactly the
corresponding prefix of the blocking result — so both paths leave the
same final command states on every batch that is resolved. -/
theorem flush_fifo_order (done : Nat → Bool) (st : QueueState)
    (list : Option (List Int)) (wait : Bool) :
    ∃ k,
      (flush done st list wait).2 =
        ((st.cbList_ ++ newBatchList st list).take k).map
          (fun cb => (awaitCompletionNonProfiled cb.head).1) ∧
      (flush done st list wait).1.cbList_ =
        (st.cbList_ ++ newBatchList st list).drop k ∧
      (flush done st list true).2 =
        (st.cbList_ ++ newBatchList st list).map
          (fun cb => (awaitCompletionNonProfiled cb.head).1) ∧
      (flush done st list wait).2 = ((flush done st list true).2).take k := by
  obtain ⟨k, hk⟩ := resolveLoop_consumes_front done
    (wait ||
      (if !(st.events_.any fun e => e.valid) && st.cbList_.isEmpty then true
       else st.forceWait_))
    (st.cbList_ ++ newBatchList st list)
  refine ⟨k, ?_, ?_, ?_, ?_⟩
  · simp only [flush, hk]
  · simp only [flush, hk]
  · simp only [flush, Bool.true_or, resolveLoop_true]
  · simp only [flush, hk, Bool.true_or, resolveLoop_true, List.map_take]

/-- The completion walk in closed form: statuses are transformed pointwise
by `resolveStatus`, and one error is logged for each command that is not
the last of the list and whose status is none of
SUBMITTED/RUNNING/COMPLETE. -/
theorem awaitWalk_eq (l : List Int) :
    awaitWalk l = (l.map resolveStatus,
      l.dropLast.countP fun s =>
        decide (s ≠ CL_SUBMITTED ∧ s ≠ CL_RUNNING ∧ s ≠ CL_COMPLETE)) := by
  induction l with
  | nil => rfl
  | cons s rest ih =>
    cases rest with
    | nil =>
      by_cases h2 : s = CL_SUBMITTED
      · simp [awaitWalk, resolveStatus, h2]
      · by_cases h1 : s = CL_RUNNING
        · simp [awaitWalk, resolveStatus, h2, h1]
        · simp [awaitWalk, resolveStatus, h2, h1]
    | cons t ts =>
      have hne : (t :: ts) ≠ ([] : List Int) := by simp
      have hstep : awaitWalk (s :: t :: ts) =
          (let r := awaitWalk (t :: ts)
           if s = CL_SUBMITTED then (CL_COMPLETE :: r.1, r.2)
           else if s = CL_RUNNING then (CL_COMPLETE :: r.1, r.2)
           else if s ≠ CL_COMPLETE ∧ (t :: ts) ≠ [] then (s :: r.1, r.2 + 1)
           else (s :: r.1, r.2)) := rfl
      rw [hstep, ih]
      simp only [CL_SUBMITTED, CL_RUNNING, CL_COMPLETE, resolveStatus,
        List.map_cons, List.dropLast_cons_of_ne_nil hne, List.countP_cons]
      by_cases h2 : s = (2 : Int)
      · simp [h2]
      · by_cases h1 : s = (1 : Int)
        · simp [h2, h1]
        · by_cases h0 : s = (0 : Int)
          · simp [h2, h1, h0]
          · simp [h2, h1, h0]

/-- C5 counterexample: in non-profiled resolution of a two-command batch
`[SUBMITTED, QUEUED]`, the final command of the list is found in the
unexpected status QUEUED, is left in that status (it does not end in
COMPLETE), and no error whatsoever is logged — the source's walk reports
an unexpected status only when the command has a successor
(`current != NULL`, gpuvirtual.cpp:2702), so the final command's bad
status is silently ignored, contradicting the claim. -/
theorem awaitCompletion_final_status_counterexample :
    (awaitCompletionNonProfiled [CL_SUBMITTED, CL_QUEUED]).2 = 0 ∧
    (awaitCompletionNonProfiled [CL_SUBMITTED, CL_QUEUED]).1.getLast? =
      some CL_QUEUED ∧ CL_QUEUED ≠ CL_COMPLETE := by decide

/-- C5 amended. In non-profiled batch resolution, after the per-engine
event wait: the head command is unconditionally set RUNNING (its prior
status is overwritten) and then resolved; every command in SUBMITTED goes
to RUNNING then COMPLETE and every command in RUNNING goes to COMPLETE;
a command in any other non-COMPLETE status is left unchanged, and an
error is reported for it exactly when it is not the final command of the
list — the final command's unexpected status is silently ignored. -/
theorem awaitCompletion_statuses_amended (h : Int) (t : List Int) :
    awaitCompletionNonProfiled (h :: t) =
      ((CL_RUNNING :: t).map resolveStatus,
        (CL_RUNNING :: t).dropLast.countP fun s =>
          decide (s ≠ CL_SUBMITTED ∧ s ≠ CL_RUNNING ∧ s ≠ CL_COMPLETE)) := by
  simpa [awaitCompletionNonProfiled] using awaitWalk_eq (CL_RUNNING :: t)

/-- C6 counterexample: the claim "every submit* entry point sets the
command's status to CL_INVALID_OPERATION whenever the underlying blit
operation fails" is false on the code. A failing map copy in
`submitMapMemory` sets `CL_MAP_FAILURE` (gpuvirtual.cpp:1075) and a
failing unmap write-back copy in `submitUnmapMemory` sets
`CL_OUT_OF_RESOURCES` (gpuvirtual.cpp:1161) — neither equals
`CL_INVALID_OPERATION`. -/
theorem submitMapMemory_error_code_counterexample :
    (submitMapMemory sampleCommand false false true true true false
      failingBlitOracle).1.status = CL_MAP_FAILURE ∧
    (submitUnmapMemory sampleCommand false false true true true false
      failingBlitOracle).1.status = CL_OUT_OF_RESOURCES ∧
    CL_MAP_FAILURE ≠ CL_INVALID_OPERATION ∧
    CL_OUT_OF_RESOURCES ≠ CL_INVALID_OPERATION := by decide

/-- C6 amended. For every submit* entry point, a failure of the
underlying blit/copy operation or kernel dispatch is recorded as an
error status on the command and the call runs through its whole body
with the lock released (the action trace is the complete lock-bracketed
trace, so the queue stays usable) — but the error code is per entry
point: `CL_INVALID_OPERATION` for `submitReadMemory` and `submitKernel`
(as the claim cites), `CL_MAP_FAILURE` for `submitMapMemory`, and
`CL_OUT_OF_RESOURCES` for a failed unmap copy (`CL_INVALID_VALUE` for
an unhandled unmap) in `submitUnmapMemory`; on success the status is
left unchanged. -/
theorem submit_failure_sets_error_status_amended (cmd : Command)
    (ty : ReadCmdType)
    (img1DBuffer bufferFromImageOk hostMemory offsetZero : Bool)
    (o : BlitOracle)
    (submitOk hostMem persistentDirectMap persistentDirectMapWithData
      mapMemoryPresent mapFlagsReadWrite isBuffer isUnmapWrite : Bool) :
    ((submitReadMemory cmd ty img1DBuffer bufferFromImageOk hostMemory
        offsetZero o).1.status =
      (if readMemoryBlitResult ty img1DBuffer bufferFromImageOk hostMemory
          offsetZero o
        then cmd.status else CL_INVALID_OPERATION)) ∧
    (submitReadMemory cmd ty img1DBuffer bufferFromImageOk hostMemory
        offsetZero o).2 =
      [QueueOp.acquireExecLock, QueueOp.blitOp, QueueOp.releaseExecLock] ∧
    ((submitKernel cmd submitOk).1.status =
      (if submitOk then cmd.status else CL_INVALID_OPERATION)) ∧
    (submitKernel cmd submitOk).2 =
      [QueueOp.acquireExecLock, QueueOp.dispatchOp, QueueOp.releaseExecLock] ∧
    ((submitMapMemory cmd hostMem persistentDirectMap mapMemoryPresent
        mapFlagsReadWrite isBuffer img1DBuffer o).1.status =
      (if mapMemoryCopyFailed hostMem persistentDirectMap mapMemoryPresent
          mapFlagsReadWrite isBuffer img1DBuffer o
        then CL_MAP_FAILURE else cmd.status)) ∧
    (submitMapMemory cmd hostMem persistentDirectMap mapMemoryPresent
        mapFlagsReadWrite isBuffer img1DBuffer o).2 =
      [QueueOp.acquireExecLock, QueueOp.blitOp, QueueOp.releaseExecLock] ∧
    ((submitUnmapMemory cmd hostMem persistentDirectMapWithData
        mapMemoryPresent isUnmapWrite isBuffer img1DBuffer o).1.status =
      (if unmapUnhandled hostMem persistentDirectMapWithData mapMemoryPresent
        then CL_INVALID_VALUE
        else if unmapMemoryCopyFailed hostMem persistentDirectMapWithData
            mapMemoryPresent isUnmapWrite isBuffer img1DBuffer o
          then CL_OUT_OF_RESOURCES else cmd.status)) ∧
    (submitUnmapMemory cmd hostMem persistentDirectMapWithData
        mapMemoryPresent isUnmapWrite isBuffer img1DBuffer o).2 =
      [QueueOp.acquireExecLock, QueueOp.blitOp, QueueOp.releaseExecLock] := by
  refine ⟨?_, rfl, ?_, rfl, ?_, rfl, ?_, rfl⟩
  · simp only [submitReadMemory, Command.setStatus]
    split <;> simp
  · simp only [submitKernel, Command.setStatus]
    split <;> simp
  · cases hostMem <;> cases persistentDirectMap <;> cases mapMemoryPresent <;>
      cases mapFlagsReadWrite <;>
      cases hb : mapBlitChoice isBuffer img1DBuffer o <;>
      simp [submitMapMemory, mapMemoryCopyFailed, Command.setStatus, hb]
  · cases hostMem <;> cases persistentDirectMapWithData <;>
      cases mapMemoryPresent <;> cases isUnmapWrite <;>
      cases hb : unmapBlitChoice isBuffer img1DBuffer o <;>
      simp [submitUnmapMemory, unmapMemoryCopyFailed, unmapUnhandled,
        Command.setStatus, hb]

/-- C7 counterexample: `submitMarker` is a public submit entry point
(gpuvirtual.cpp:2050) that performs an observable state change — it sets
the force-wait flag when the waiting command is not found in any batch —
with an empty action trace: no execution-exclusivity lock is ever
acquired during the call, refuting "every public submit* entry point
acquires that queue's execution-exclusivity scoped lock for the entire
duration of the call". -/
theorem submitMarker_no_lock_counterexample :
    (submitMarker (fun _ => false) sampleIdleState true).2 = [] ∧
    QueueOp.acquireExecLock ∉ (submitMarker (fun _ => false) sampleIdleState true).2 ∧
    (submitMarker (fun _ => false) sampleIdleState true).1.forceWait_ = true ∧
    sampleIdleState.forceWait_ = false := by decide

/-- C7 amended. The submit entry points other than `submitMarker` — shown
here for the two cited by the claim, `submitReadMemory` and
`submitKernel` — hold the queue's execution-exclusivity scoped lock for
the entire duration of the call: their action trace begins with the lock
acquisition and ends with its release. `submitMarker` deliberately runs
without it (taking the lock only transiently inside batch resolution's
`waitEventLock`). -/
theorem submit_lock_bracketing_amended (cmd : Command) (ty : ReadCmdType)
    (img1DBuffer bufferFromImageOk hostMemory offsetZero : Bool)
    (o : BlitOracle) (submitOk : Bool) :
    ((submitReadMemory cmd ty img1DBuffer bufferFromImageOk hostMemory
        offsetZero o).2.head? = some QueueOp.acquireExecLock ∧
     (submitReadMemory cmd ty img1DBuffer bufferFromImageOk hostMemory
        offsetZero o).2.getLast? = some QueueOp.releaseExecLock) ∧
    ((submitKernel cmd submitOk).2.head? = some QueueOp.acquireExecLock ∧
     (submitKernel cmd submitOk).2.getLast? = some QueueOp.releaseExecLock) :=
  ⟨⟨rfl, rfl⟩, ⟨rfl, rfl⟩⟩

/-- Invalidating a list of already-invalid events changes nothing. -/
theorem invalidate_map_id (l : List GpuEvent)
    (h : ∀ e ∈ l, e.valid = false) : l.map GpuEvent.invalidate = l := by
  induction l with
  | nil => rfl
  | cons e rest ih =>
    have he := h e (List.mem_cons_self e rest)
    have hee : GpuEvent.invalidate e = e := by
      cases e
      simp only [GpuEvent.invalidate] at he ⊢
      simp [he]
    simp [hee, ih (fun x hx => h x (List.mem_cons_of_mem _ hx))]

/-- On a queue with no valid engine event and an empty batch FIFO,
`flush` with no command list resolves nothing and only clears the
force-wait flag and the cached last-timestamp handle. -/
theorem flush_idle (done : Nat → Bool) (st : QueueState) (wait : Bool)
    (h1 : ∀ e ∈ st.events_, e.valid = false) (h2 : st.cbList_ = []) :
    flush done st none wait =
      ({ st with lastTS_ := none, forceWait_ := false }, []) := by
  simp only [flush, newBatchList, h2, List.append_nil, resolveLoop,
    invalidate_map_id st.events_ h1]

/-- C8 counterexample: a reachable queue state with an empty batch FIFO
and no valid per-engine event but the force-wait flag set (exactly what
`submitMarker` leaves behind when its waiting command is not found in
any batch, gpuvirtual.cpp:2072). Flushing it with an empty command list
changes the observable state: the force-wait flag goes from set to
clear, contradicting "leaves the queue's observable state (including the
force-wait flag) unchanged on exit". -/
theorem flush_empty_forceWait_counterexample :
    sampleForceWaitState.cbList_ = [] ∧
    (∀ e ∈ sampleForceWaitState.events_, e.valid = false) ∧
    (flush (fun _ => false) sampleForceWaitState none false).1 ≠
      sampleForceWaitState ∧
    (flush (fun _ => false) sampleForceWaitState none false).1.forceWait_ = false ∧
    sampleForceWaitState.forceWait_ = true := by decide

/-- C8 amended. Calling `flush` with an empty command list on a queue
with no valid per-engine events and an empty batch FIFO resolves and
alters no batch, leaves the FIFO empty and leaves the state unchanged
except that the force-wait flag and the cached last-timestamp handle are
cleared (they are unchanged whenever they were already clear — the usual
case, since `flush` itself always exits with both cleared); flushing
twice in a row is equivalent to flushing once. -/
theorem flush_empty_noop_amended (done : Nat → Bool) (st : QueueState)
    (wait wait2 : Bool)
    (h1 : ∀ e ∈ st.events_, e.valid = false) (h2 : st.cbList_ = []) :
    (flush done st none wait).2 = [] ∧
    (flush done st none wait).1 = { st with lastTS_ := none, forceWait_ := false } ∧
    flush done ((flush done st none wait).1) none wait2 =
      ((flush done st none wait).1, []) := by
  have key := flush_idle done st wait h1 h2
  refine ⟨by rw [key], by rw [key], ?_⟩
  rw [key]
  have key2 := flush_idle done ({ st with lastTS_ := none, forceWait_ := false })
    wait2 h1 h2
  rw [key2]

/-- Witness for C8 amended: the idle sample state (one invalid event,
empty FIFO, clear flags) flushed twice resolves nothing and is left
exactly as it was. -/
theorem flush_empty_noop_amended_witness :
    ((∀ e ∈ sampleIdleState.events_, e.valid = false) ∧
      sampleIdleState.cbList_ = []) ∧
    (flush (fun _ => false) sampleIdleState none false).2 = [] :=
  ⟨⟨by decide, by decide⟩,
    (flush_empty_noop_amended (fun _ => false) sampleIdleState false false
      (by decide) (by decide)).1⟩

/-- C9. For a dynamic-parallelism kernel whose default device queue maps
to the same hardware ring as the submitting host queue,
`submitKernelInternalHSA` fails (returns false, so the command receives
an error status) before any dispatch: neither the parent AQL dispatch nor
the child-scheduler dispatch is issued, so child kernels are only ever
scheduled on a hardware ring different from the parent's. -/
theorem submitKernelInternalHSA_same_ring_rejected (inp : HsaSubmitInput)
    (r : Nat) (hdp : inp.dynamicParallelism = true)
    (hq : inp.defQueueRing = some r) (hr : r = inp.hostRing) :
    (submitKernelInternalHSA inp).1 = false ∧
    HsaAction.runScheduler ∉ (submitKernelInternalHSA inp).2 ∧
    HsaAction.runAqlDispatch ∉ (submitKernelInternalHSA inp).2 := by
  subst hr
  unfold submitKernelInternalHSA
  by_cases hp : inp.printfInitOk = false
  · rw [if_pos hp]
    simp
  · rw [if_neg hp]
    by_cases hf : inp.fgsStatus = FGSStatus.fgsYes ∧ inp.deviceSupportFGS = false
    · rw [if_pos hf]
      simp
    · rw [if_neg hf]
      by_cases hs : svmLoopOk
          (supportFineGrainedSystem inp.fgsStatus inp.deviceSupportFGS)
          inp.svmLookups = false
      · rw [if_pos hs]
        simp
      · rw [if_neg hs]
        simp [hdp, hq]

/-- Witness for C9: a concrete dynamic-parallelism submission whose
default queue ring equals the host ring (both 0) is rejected with no
dispatch. -/
theorem submitKernelInternalHSA_same_ring_rejected_witness :
    (({ printfInitOk := true, fgsStatus := FGSStatus.fgsDefault,
        deviceSupportFGS := false, svmLookups := [],
        dynamicParallelism := true, defQueueRing := some 0, hostRing := 0,
        loadArgumentsOk := true, printfOutputOk := true } :
          HsaSubmitInput).dynamicParallelism = true) ∧
    (submitKernelInternalHSA
      { printfInitOk := true, fgsStatus := FGSStatus.fgsDefault,
        deviceSupportFGS := false, svmLookups := [],
        dynamicParallelism := true, defQueueRing := some 0, hostRing := 0,
        loadArgumentsOk := true, printfOutputOk := true }).1 = false :=
  ⟨by decide,
    (submitKernelInternalHSA_same_ring_rejected
      { printfInitOk := true, fgsStatus := FGSStatus.fgsDefault,
        deviceSupportFGS := false, svmLookups := [],
        dynamicParallelism := true, defQueueRing := some 0, hostRing := 0,
        loadArgumentsOk := true, printfOutputOk := true }
      0 (by decide) (by decide) (by decide)).1⟩

end gpu
